import Mathlib

/-!
Shallow embedding of the store-management backend's access-policy layer
(`src/backend/app`), covering: complaint visibility (routers/complaints.py),
temperature-log violation creation (routers/temperature.py), terminal-status
timestamping (routers/tasks.py, routers/complaints.py), department-handler
auto-assignment (routers/complaints.py, routers/preorders.py), the
pagination envelope (routers/announcements.py, routers/departments.py),
department deletion with dependency breaking (routers/departments.py,
utils/db_helpers.py), principal-context resolution (utils/auth_utils.py),
user projections (routers/users.py, routers/auth.py) and mandatory-training
fan-out (routers/training.py).

Nullable SQL columns are `Option` types.  Machine-level details that matter
are modelled explicitly: Python truthiness (`None` and `0` are falsy,
an empty list or string is falsy), Python `==` on possibly-`None` values
(`None == None` is `True`), and SQL three-valued logic in `WHERE` clauses
(a comparison against `NULL` is `UNKNOWN`, which excludes the row, while
SQLAlchemy compiles `col == None` to `col IS NULL`).  Timestamps are `Nat`
ticks; temperatures are `ℚ`.
-/

namespace StoreApp

/-- Python truthiness of an optional integer: `None` and `0` are falsy. -/
def optTruthy : Option Nat → Bool
  | none => false
  | some n => n != 0

/-- Python truthiness of an optional string: `None` and `""` are falsy. -/
def strTruthy : Option String → Bool
  | none => false
  | some s => !s.isEmpty

/-- Python `x or y` on an optional integer (`x` if truthy, else `y`). -/
def pyOrNat (x : Option Nat) (y : Nat) : Nat :=
  match x with
  | none => y
  | some n => if n != 0 then n else y

/-- Python `x or y` where the fallback is itself optional. -/
def pyOrOpt (x : Option Nat) (y : Option Nat) : Option Nat :=
  if optTruthy x then x else y

/-- SQLAlchemy `col == v` where `v` is a Python optional: `col == None`
compiles to `col IS NULL` (true exactly on `NULL`); a concrete `v`
compiles to `col = v`, which is `UNKNOWN` (row excluded) on `NULL`. -/
def sqlEqOpt (col : Option Nat) (v : Option Nat) : Bool :=
  match v with
  | none => col == none
  | some x => col == some x

/-- SQL `col != s` on a nullable text column: `NULL != s` is `UNKNOWN`,
so the row is excluded. -/
def sqlNeStr (col : Option String) (s : String) : Bool :=
  match col with
  | none => false
  | some t => t != s

/-- SQL `col != TRUE` on a nullable boolean column: `NULL` is excluded. -/
def sqlNeTrue (col : Option Bool) : Bool :=
  match col with
  | none => false
  | some b => b != true

/-- `startsWithL pat s` holds when `pat` is an initial segment of `s`. -/
def startsWithL : List Char → List Char → Bool
  | [], _ => true
  | _ :: _, [] => false
  | p :: ps, c :: cs => p == c && startsWithL ps cs

/-- `containsSeg pat s` holds when `pat` occurs contiguously in `s`. -/
def containsSeg (pat : List Char) : List Char → Bool
  | [] => pat.isEmpty
  | c :: cs => startsWithL pat (c :: cs) || containsSeg pat cs

/-- Lower-case a string character by character (as its character list). -/
def strLower (s : String) : List Char := s.data.map Char.toLower

/-- SQL `col ILIKE '%pat%'` on a nullable text column: case-insensitive
substring match, `NULL` never matches. -/
def ilikeContains (col : Option String) (pat : String) : Bool :=
  match col with
  | none => false
  | some s => containsSeg (strLower pat) (strLower s)

/-- An `HTTPException` raised through `utils/error_handling.raise_api_error`. -/
structure ApiError where
  status_code : Nat
  detail : String
deriving DecidableEq, Repr

/-- A row of the `users` table (`models.User`); the authenticated principal
`current_user` is exactly such a row turned into a dict. -/
structure User where
  id : Nat
  username : String
  password_hash : String
  user_type : String
  employee_id : Option Nat
  department_id : Option Nat
  role : String
  is_active : Bool
  created_at : Nat
  updated_at : Nat
deriving DecidableEq, Repr

/-- A row of the `customer_complaints` table (`models.CustomerComplaint`),
without the autogenerated `id`/`created_at`/`updated_at` bookkeeping. -/
structure Complaint where
  customer_name : Option String
  customer_email : Option String
  customer_phone : Option String
  complaint_type : String
  description : String
  department_involved : Option Nat
  reported_by : Option Nat
  assigned_to : Option Nat
  severity : Option String
  status : Option String
  resolution : Option String
  is_private : Option Bool
  resolved_at : Option Nat
deriving DecidableEq, Repr

/-- Role-based `WHERE` filter of `get_complaints` (complaints.py lines
47-62): admin passes everything; a manager with a truthy `department_id`
passes rows of their department; every other principal (including a
manager whose `department_id` is `None` or `0`) gets the staff filter,
evaluated with SQL null semantics. -/
def complaintsListVisible (u : User) (c : Complaint) : Bool :=
  if u.role == "admin" then
    true
  else if u.role == "manager" && optTruthy u.department_id then
    sqlEqOpt c.department_involved u.department_id
  else
    sqlEqOpt c.department_involved u.department_id &&
    sqlNeStr c.severity "high" &&
    sqlNeTrue c.is_private

/-- Access check of `get_complaint` (complaints.py lines 386-399),
with Python `==` semantics on optional values (`None == None` is true). -/
def complaintDetailVisible (u : User) (c : Complaint) : Bool :=
  if u.role == "admin" then
    true
  else if u.role == "manager" && u.department_id == c.department_involved then
    true
  else if u.department_id == c.department_involved then
    !(c.is_private == some true || c.severity == some "high")
  else
    false

/-- Modelled from the spec: the visibility predicate claimed in §8 of the
spec — admin, or manager of the complaint's department, or same department
with non-high severity and not private. -/
def specComplaintVisible (u : User) (c : Complaint) : Bool :=
  u.role == "admin" ||
  (u.role == "manager" && u.department_id == c.department_involved) ||
  (u.department_id == c.department_involved &&
   c.severity != some "high" && c.is_private != some true)

/-- A row of the `temperature_monitoring_points` table. -/
structure MonitoringPoint where
  id : Nat
  department_id : Option Nat
  min_temp_fahrenheit : ℚ
  max_temp_fahrenheit : ℚ
deriving DecidableEq, Repr

/-- The request body of `POST /temperature/logs` (`schemas.TempLogCreate`). -/
structure TempLogCreate where
  monitoring_point_id : Nat
  recorded_temp_fahrenheit : ℚ
  recorded_by : Option Nat
  notes : Option String
  shift : Option String
deriving DecidableEq, Repr

/-- A row of the `temperature_logs` table as inserted by the handler. -/
structure TempLog where
  id : Nat
  monitoring_point_id : Nat
  recorded_temp_fahrenheit : ℚ
  recorded_by : Nat
  is_within_range : Bool
  notes : Option String
  shift : Option String
deriving DecidableEq, Repr

/-- A row of the `temperature_violations` table as inserted by the handler. -/
structure TemperatureViolation where
  log_id : Nat
  monitoring_point_id : Nat
  violation_type : String
  severity : String
  status : String
deriving DecidableEq, Repr

/-- `create_temperature_log` (temperature.py lines 243-298).  The database
is the list of monitoring points; `newLogId` is the autogenerated primary
key of the inserted log.  Returns the inserted log row together with the
list of violation rows inserted alongside it. -/
def createTemperatureLog (points : List MonitoringPoint) (logData : TempLogCreate)
    (currentUserId : Nat) (newLogId : Nat) :
    Except ApiError (TempLog × List TemperatureViolation) :=
  match points.find? (fun p => p.id == logData.monitoring_point_id) with
  | none => .error ⟨404, "Temperature monitoring point not found"⟩
  | some mp =>
    let is_within_range : Bool :=
      decide (mp.min_temp_fahrenheit ≤ logData.recorded_temp_fahrenheit) &&
      decide (logData.recorded_temp_fahrenheit ≤ mp.max_temp_fahrenheit)
    let newLog : TempLog :=
      { id := newLogId
        monitoring_point_id := logData.monitoring_point_id
        recorded_temp_fahrenheit := logData.recorded_temp_fahrenheit
        recorded_by := pyOrNat logData.recorded_by currentUserId
        is_within_range := is_within_range
        notes := logData.notes
        shift := logData.shift }
    let violations : List TemperatureViolation :=
      if !is_within_range then
        [{ log_id := newLogId
           monitoring_point_id := logData.monitoring_point_id
           violation_type :=
             if logData.recorded_temp_fahrenheit < mp.min_temp_fahrenheit
             then "too_cold" else "too_hot"
           severity :=
             if |logData.recorded_temp_fahrenheit -
                 (mp.min_temp_fahrenheit + mp.max_temp_fahrenheit) / 2| > 10
             then "high" else "medium"
           status := "open" }]
      else []
    .ok (newLog, violations)

/-- A row of the `tasks` table (`models.Task`), without bookkeeping ids. -/
structure Task where
  title : String
  description : Option String
  department_id : Option Nat
  assigned_by : Option Nat
  assigned_to : Option Nat
  assigned_to_department : Option Nat
  is_urgent : Option Bool
  due_date : Option Nat
  status : Option String
  is_completed : Option Bool
  completed_at : Option Nat
deriving DecidableEq, Repr

/-- `update_task_status` (tasks.py lines 516-563).  `statusUpdate` is the
value of the `"status"` key of the request dict (`none` when the key is
absent); `now` is `datetime.now()`.  Setting status to `"completed"`
unconditionally overwrites `completed_at` with the current time; any
other status clears `completed_at` only when the task was previously
`"completed"`. -/
def updateTaskStatus (u : User) (task : Task) (statusUpdate : Option String)
    (now : Nat) : Except ApiError Task :=
  let is_task_owner :=
    task.assigned_to == some u.id ||
    task.assigned_by == some u.id ||
    (u.role == "admin" || u.role == "manager")
  if !is_task_owner then
    .error ⟨403, "You do not have permission to update this task"⟩
  else
    match statusUpdate with
    | none => .error ⟨400, "Status field is required"⟩
    | some s =>
      if s == "completed" then
        .ok { task with status := some s, completed_at := some now,
                        is_completed := some true }
      else
        .ok { task with status := some s, is_completed := some false,
                        completed_at :=
                          if task.status == some "completed" then none
                          else task.completed_at }

/-- `update_complaint_status` (complaints.py lines 520-559).  Setting the
status to `"resolved"` unconditionally overwrites `resolved_at` with the
current time; no path ever clears `resolved_at`. -/
def updateComplaintStatus (u : User) (c : Complaint) (statusUpdate : Option String)
    (now : Nat) : Except ApiError Complaint :=
  let is_admin := u.role == "admin"
  let is_manager := u.role == "manager" && u.department_id == c.department_involved
  let is_handler := some u.id == c.assigned_to
  if !(is_admin || is_manager || is_handler) then
    .error ⟨403, "You don't have permission to update this complaint's status"⟩
  else
    match statusUpdate with
    | none => .error ⟨400, "Status field is required"⟩
    | some s =>
      if s == "resolved" then
        .ok { c with status := some s, resolved_at := some now }
      else
        .ok { c with status := some s }

/-- A row of the `employees` table (`models.Employee`), restricted to the
columns the policy layer reads. -/
structure Employee where
  id : Nat
  first_name : String
  last_name : String
  department_id : Option Nat
  position : Option String
  status : Option String
deriving DecidableEq, Repr

/-- The auto-assignment lookup shared by `create_complaint` (complaints.py
lines 438-452) and `create_preorder` (preorders.py lines 427-441): the
first active employee of the department whose position matches
`ILIKE '%manager%'` or `ILIKE '%lead%'` (`.limit(1)` + `fetchone`). -/
def findDeptHandler (emps : List Employee) (deptId : Nat) : Option Employee :=
  emps.find? (fun e =>
    e.department_id == some deptId &&
    e.status == some "active" &&
    (ilikeContains e.position "manager" || ilikeContains e.position "lead"))

/-- The request body of `POST /complaints` (`schemas.ComplaintCreate`).
`severity` defaults to `"medium"`, `status` to `"open"`, `is_private`
to `False` when omitted. -/
structure ComplaintCreate where
  customer_name : Option String
  customer_email : Option String
  customer_phone : Option String
  complaint_type : String
  description : String
  department_involved : Option Nat
  severity : String
  status : String
  resolution : Option String
  is_private : Bool
  reported_by : Option Nat
  assigned_to : Option Nat
deriving DecidableEq, Repr

/-- `create_complaint` (complaints.py lines 417-461): builds the insert
dict — forcing `is_private` for high severity — then, when a department is
given without an assignee, auto-assigns the first department handler.
The insert itself cannot fail, so the created row is returned directly. -/
def createComplaint (emps : List Employee) (req : ComplaintCreate) (u : User) :
    Complaint :=
  let newComplaint : Complaint :=
    { customer_name := req.customer_name
      customer_email := req.customer_email
      customer_phone := req.customer_phone
      complaint_type := req.complaint_type
      description := req.description
      department_involved := req.department_involved
      reported_by := some (pyOrNat req.reported_by u.id)
      severity := some req.severity
      status := some req.status
      resolution := req.resolution
      assigned_to := req.assigned_to
      is_private := some (req.is_private || req.severity == "high")
      resolved_at := none }
  if optTruthy req.department_involved && !optTruthy req.assigned_to then
    match findDeptHandler emps (req.department_involved.getD 0) with
    | some e => { newComplaint with assigned_to := some e.id }
    | none => newComplaint
  else newComplaint

/-- The request body of `POST /preorders` (`schemas.PreOrderCreate`). -/
structure PreOrderCreate where
  customer_name : String
  customer_email : Option String
  customer_phone : Option String
  order_type : String
  description : String
  target_department : Option Nat
  quantity : Option Nat
  estimated_price : Option ℚ
  pickup_date : Option Nat
  special_instructions : Option String
  status : String
  requested_by : Option Nat
  assigned_to : Option Nat
deriving DecidableEq, Repr

/-- A row of the `pre_orders` table (`models.PreOrder`) as inserted. -/
structure PreOrder where
  customer_name : String
  customer_email : Option String
  customer_phone : Option String
  order_type : String
  description : String
  target_department : Option Nat
  requested_by : Option Nat
  assigned_to : Option Nat
  quantity : Option Nat
  estimated_price : Option ℚ
  pickup_date : Option Nat
  special_instructions : Option String
  status : String
deriving DecidableEq, Repr

/-- `create_preorder` (preorders.py lines 405-451): same auto-assignment
step as `create_complaint`, keyed on `target_department`. -/
def createPreorder (emps : List Employee) (req : PreOrderCreate) (u : User) :
    PreOrder :=
  let newPreorder : PreOrder :=
    { customer_name := req.customer_name
      customer_email := req.customer_email
      customer_phone := req.customer_phone
      order_type := req.order_type
      description := req.description
      target_department := req.target_department
      requested_by := pyOrOpt req.requested_by u.employee_id
      assigned_to := req.assigned_to
      quantity := req.quantity
      estimated_price := req.estimated_price
      pickup_date := req.pickup_date
      special_instructions := req.special_instructions
      status := req.status }
  if optTruthy req.target_department && !optTruthy req.assigned_to then
    match findDeptHandler emps (req.target_department.getD 0) with
    | some e => { newPreorder with assigned_to := some e.id }
    | none => newPreorder
  else newPreorder

/-- A row of the `announcements` table (`models.Announcement`). -/
structure Announcement where
  id : Nat
  title : String
  message : String
  announcement_type : Option String
  target_department : Option Nat
  created_by : Option Nat
  priority : Option String
  is_active : Option Bool
  expires_at : Option Nat
  target_roles : Option (List String)
  created_at : Nat
deriving DecidableEq, Repr

/-- A row of the `departments` table (`models.Department`). -/
structure Department where
  id : Nat
  name : String
  department_code : Option String
  description : Option String
  manager_id : Option Nat
  is_active : Option Bool
deriving DecidableEq, Repr

/-- The `pagination` object of every list response. -/
structure Pagination where
  total : Nat
  limit : Nat
  offset : Nat
  has_more : Bool
deriving DecidableEq, Repr

/-- The `sort` object of every list response. -/
structure SortInfo where
  field : String
  order : String
deriving DecidableEq, Repr

/-- The `{items, pagination, sort}` response wrapper of list endpoints. -/
structure Envelope (α : Type) where
  items : List α
  pagination : Pagination
  sort : SortInfo
deriving DecidableEq, Repr

/-- Insert `a` into a list sorted by the boolean relation `le` (stable). -/
def insertSorted (le : α → α → Bool) (a : α) : List α → List α
  | [] => [a]
  | b :: bs => if le a b then a :: b :: bs else b :: insertSorted le a bs

/-- Stable insertion sort by the boolean relation `le`. -/
def sortByLe (le : α → α → Bool) : List α → List α
  | [] => []
  | a :: as => insertSorted le a (sortByLe le as)

/-- The caller-supplied filter conditions of `get_announcements`
(announcements.py lines 38-61), which are the only conditions the
count query receives. -/
def announcementCallerFilter (is_active : Option Bool) (target_department : Option Nat)
    (announcement_type : Option String) (priority : Option String)
    (search : Option String) (a : Announcement) : Bool :=
  (match is_active with
   | none => true
   | some v => a.is_active == some v) &&
  (if optTruthy target_department then sqlEqOpt a.target_department target_department
   else true) &&
  (match announcement_type with
   | none => true
   | some t => if t.isEmpty then true else a.announcement_type == some t) &&
  (match priority with
   | none => true
   | some p => if p.isEmpty then true else a.priority == some p) &&
  (match search with
   | none => true
   | some s =>
     if s.isEmpty then true
     else
       ilikeContains (some a.title) s ||
       ilikeContains (some a.message) s ||
       ilikeContains a.announcement_type s)

/-- The post-query Python visibility filter of `get_announcements`
(announcements.py lines 86-101), applied per item after pagination. -/
def announcementPythonVisible (u : User) (a : Announcement) : Bool :=
  (match a.target_roles with
   | none => true
   | some roles =>
     if !roles.isEmpty && roles.length > 0 then roles.contains u.role else true) &&
  (match a.target_department with
   | none => true
   | some td => u.role == "admin" || (some td == u.department_id))

/-- `get_announcements` (announcements.py lines 20-118).  Caller filters
and search go into both the paged query and the count query; the expiry
condition goes only into the paged query; role/department visibility is
applied in Python after pagination.  Sorting: `created_at` is the default
sort column and the only one modelled — sorting by any other real column
merely permutes the pre-pagination rows the same way. -/
def getAnnouncements (anns : List Announcement) (u : User) (skip limit : Nat)
    (is_active : Option Bool) (target_department : Option Nat)
    (announcement_type : Option String) (priority : Option String)
    (sort : String) (order : String) (search : Option String) (now : Nat) :
    Envelope Announcement :=
  let rowsF := anns.filter
    (announcementCallerFilter is_active target_department announcement_type priority search)
  let rowsE := rowsF.filter (fun a =>
    match a.expires_at with
    | none => true
    | some t => now < t)
  let sorted :=
    if sort == "created_at" then
      if strLower order == "asc".toList then
        sortByLe (fun a b => a.created_at ≤ b.created_at) rowsE
      else
        sortByLe (fun a b => b.created_at ≤ a.created_at) rowsE
    else rowsE
  let paged := (sorted.drop skip).take limit
  let items := paged.filter (announcementPythonVisible u)
  let total := rowsF.length
  { items := items
    pagination :=
      { total := total, limit := limit, offset := skip
        has_more := decide (skip + limit < total) }
    sort := { field := sort, order := order } }

/-- The caller-supplied filter conditions of `get_departments`
(departments.py lines 36-50), shared by the paged and count queries. -/
def departmentCallerFilter (is_active : Option Bool) (search : Option String)
    (d : Department) : Bool :=
  (match is_active with
   | none => true
   | some v => d.is_active == some v) &&
  (match search with
   | none => true
   | some s =>
     if s.isEmpty then true
     else
       ilikeContains (some d.name) s ||
       ilikeContains d.department_code s ||
       ilikeContains d.description s)

/-- `get_departments` (departments.py lines 21-83).  `name` is the default
sort column and the only one modelled. -/
def getDepartments (depts : List Department) (skip limit : Nat)
    (is_active : Option Bool) (sort : String) (order : String)
    (search : Option String) : Envelope Department :=
  let rowsF := depts.filter (departmentCallerFilter is_active search)
  let sorted :=
    if sort == "name" then
      if strLower order == "asc".toList then
        sortByLe (fun a b => decide (a.name ≤ b.name)) rowsF
      else
        sortByLe (fun a b => decide (b.name ≤ a.name)) rowsF
    else rowsF
  let paged := (sorted.drop skip).take limit
  let total := rowsF.length
  { items := paged
    pagination :=
      { total := total, limit := limit, offset := skip
        has_more := decide (skip + limit < total) }
    sort := { field := sort, order := order } }

/-- A row of the `inventory_requests` table, restricted to its department
references (the columns `break_department_dependencies` touches). -/
structure InventoryRequest where
  id : Nat
  requesting_department : Option Nat
  fulfilling_department : Option Nat
deriving DecidableEq, Repr

/-- A row of the `equipment` table, restricted to its department reference. -/
structure Equipment where
  id : Nat
  equipment_name : String
  department_id : Option Nat
deriving DecidableEq, Repr

/-- A row of the `announcement_reads` table, restricted to its department
reference. -/
structure AnnouncementRead where
  id : Nat
  announcement_id : Nat
  employee_id : Option Nat
  department_id : Option Nat
deriving DecidableEq, Repr

/-- The database state touched by department deletion. -/
structure Store where
  departments : List Department
  employees : List Employee
  users : List User
  tasks : List Task
  complaints : List Complaint
  preorders : List PreOrder
  inventoryRequests : List InventoryRequest
  equipment : List Equipment
  monitoringPoints : List MonitoringPoint
  announcements : List Announcement
  announcementReads : List AnnouncementRead
deriving Repr

/-- One `UPDATE t SET col = NULL WHERE col = :department_id` statement,
expressed as a column-selective rewrite of every row. -/
def nullOutRef (get : α → Option Nat) (set : α → Option Nat → α) (d : Nat)
    (row : α) : α :=
  if get row == some d then set row none else row

/-- `break_department_dependencies` (utils/db_helpers.py lines 138-191):
nulls out, table by table and column by column, every reference to the
department being deleted. -/
def breakDepartmentDependencies (s : Store) (d : Nat) : Store :=
  { s with
    tasks := (s.tasks.map
        (nullOutRef Task.department_id (fun t v => { t with department_id := v }) d)).map
        (nullOutRef Task.assigned_to_department
          (fun t v => { t with assigned_to_department := v }) d)
    complaints := s.complaints.map
        (nullOutRef Complaint.department_involved
          (fun c v => { c with department_involved := v }) d)
    preorders := s.preorders.map
        (nullOutRef PreOrder.target_department
          (fun p v => { p with target_department := v }) d)
    inventoryRequests := (s.inventoryRequests.map
        (nullOutRef InventoryRequest.requesting_department
          (fun r v => { r with requesting_department := v }) d)).map
        (nullOutRef InventoryRequest.fulfilling_department
          (fun r v => { r with fulfilling_department := v }) d)
    equipment := s.equipment.map
        (nullOutRef Equipment.department_id (fun e v => { e with department_id := v }) d)
    monitoringPoints := s.monitoringPoints.map
        (nullOutRef MonitoringPoint.department_id
          (fun m v => { m with department_id := v }) d)
    announcements := s.announcements.map
        (nullOutRef Announcement.target_department
          (fun a v => { a with target_department := v }) d)
    announcementReads := s.announcementReads.map
        (nullOutRef AnnouncementRead.department_id
          (fun a v => { a with department_id := v }) d) }

/-- The 400 message of `delete_department` when employees still reference
the department, naming their count. -/
def deptEmployeesMsg (d n : Nat) : String :=
  "Cannot delete department with ID " ++ toString d ++ " because it has " ++
  toString n ++ " employees assigned to it. Reassign or remove employees first."

/-- The 400 message of `delete_department` when users still reference the
department, naming their count. -/
def deptUsersMsg (d n : Nat) : String :=
  "Cannot delete department with ID " ++ toString d ++ " because it has " ++
  toString n ++ " users assigned to it. Reassign or remove users first."

/-- `delete_department` (departments.py lines 182-232).  The returned
store is the post-call database state: unchanged on every error path
(each `raise` happens before any write), and with references broken and
the department row removed on success. -/
def deleteDepartment (s : Store) (d : Nat) :
    Store × Except ApiError String :=
  if (s.departments.find? (fun x => x.id == d)).isNone then
    (s, .error ⟨404, "Department not found"⟩)
  else
    let deptEmployees := s.employees.filter (fun e => e.department_id == some d)
    if !deptEmployees.isEmpty then
      (s, .error ⟨400, deptEmployeesMsg d deptEmployees.length⟩)
    else
      let deptUsers := s.users.filter (fun x => x.department_id == some d)
      if !deptUsers.isEmpty then
        (s, .error ⟨400, deptUsersMsg d deptUsers.length⟩)
      else
        let s' := breakDepartmentDependencies s d
        ({ s' with departments := s'.departments.filter (fun x => !(x.id == d)) },
         .ok "Department deleted successfully")

/-- Outcome of `jwt.decode` on the presented credential: `err` covers a
missing, malformed or expired bearer token (`JWTError`, and the framework's
own 401 on a missing header); `ok sub` is a decoded payload whose `sub`
claim may be absent. -/
inductive TokenDecode where
  | err
  | ok (sub : Option String)
deriving DecidableEq, Repr

/-- `get_current_user` (utils/auth_utils.py lines 36-54): 401 on any decode
failure, missing `sub`, or username that resolves to no user row. -/
def getCurrentUser (dbUsers : List User) (tok : TokenDecode) :
    Except ApiError User :=
  match tok with
  | .err => .error ⟨401, "Could not validate credentials"⟩
  | .ok none => .error ⟨401, "Could not validate credentials"⟩
  | .ok (some username) =>
    match dbUsers.find? (fun x => x.username == username) with
    | none => .error ⟨401, "Could not validate credentials"⟩
    | some u => .ok u

/-- `get_current_active_user` (utils/auth_utils.py lines 56-59): rejects an
inactive resolved user with status 400 (`raise_api_error(400, "Inactive
user")`).  Every handler consumes the principal through this dependency,
so these failures precede all resource logic. -/
def getCurrentActiveUser (dbUsers : List User) (tok : TokenDecode) :
    Except ApiError User :=
  match getCurrentUser dbUsers tok with
  | .error e => .error e
  | .ok u => if !u.is_active then .error ⟨400, "Inactive user"⟩ else .ok u

/-- A JSON-ish value of a projected row field. -/
inductive Value where
  | vNull
  | vInt (n : Nat)
  | vStr (s : String)
  | vBool (b : Bool)
deriving DecidableEq, Repr

/-- Project an optional integer column. -/
def optIntVal : Option Nat → Value
  | none => .vNull
  | some n => .vInt n

/-- Project an optional string column. -/
def optStrVal : Option String → Value
  | none => .vNull
  | some s => .vStr s

/-- `row_to_dict` on a `users` row: every column, in table order. -/
def userRowToDict (u : User) : List (String × Value) :=
  [("id", .vInt u.id),
   ("username", .vStr u.username),
   ("password_hash", .vStr u.password_hash),
   ("user_type", .vStr u.user_type),
   ("employee_id", optIntVal u.employee_id),
   ("department_id", optIntVal u.department_id),
   ("role", .vStr u.role),
   ("is_active", .vBool u.is_active),
   ("created_at", .vInt u.created_at),
   ("updated_at", .vInt u.updated_at)]

/-- `row_to_dict` on an `employees` row (the columns modelled here). -/
def empRowToDict (e : Employee) : List (String × Value) :=
  [("id", .vInt e.id),
   ("first_name", .vStr e.first_name),
   ("last_name", .vStr e.last_name),
   ("department_id", optIntVal e.department_id),
   ("position", optStrVal e.position),
   ("status", optStrVal e.status)]

/-- `row_to_dict` on a `departments` row. -/
def deptRowToDict (dep : Department) : List (String × Value) :=
  [("id", .vInt dep.id),
   ("name", .vStr dep.name),
   ("department_code", optStrVal dep.department_code),
   ("description", optStrVal dep.description),
   ("manager_id", optIntVal dep.manager_id),
   ("is_active", match dep.is_active with | none => .vNull | some b => .vBool b)]

/-- Look a key up in a projected dict. -/
def lookupKey (k : String) (l : List (String × Value)) : Option Value :=
  (l.find? (fun kv => kv.fst == k)).map (fun kv => kv.snd)

/-- `get_user` (routers/users.py lines 97-118): own-profile restriction for
non-privileged principals, then the row projection with `password_hash`
deleted. -/
def getUserEndpoint (dbUsers : List User) (cu : User) (userId : Nat) :
    Except ApiError (List (String × Value)) :=
  if !(cu.role == "admin" || cu.role == "manager") && cu.id != userId then
    .error ⟨403, "Not authorized to view this user"⟩
  else
    match dbUsers.find? (fun x => x.id == userId) with
    | none => .error ⟨404, "User not found"⟩
    | some target =>
      .ok ((userRowToDict target).filter (fun kv => kv.fst != "password_hash"))

/-- The response body of `GET /auth/me`. -/
structure MeResponse where
  user : List (String × Value)
  employee : Option (List (String × Value))
  department : Option (List (String × Value))
deriving DecidableEq, Repr

/-- `get_current_user_info` (routers/auth.py lines 90-116): returns
`current_user` — the raw `users` row dict — under the `"user"` key,
with the linked employee and department rows when they resolve. -/
def getCurrentUserInfo (emps : List Employee) (depts : List Department)
    (cu : User) : MeResponse :=
  let found :=
    if optTruthy cu.employee_id then
      emps.find? (fun e => e.id == cu.employee_id.getD 0)
    else none
  let employee_data := found.map empRowToDict
  let department_data :=
    match found with
    | none => none
    | some e =>
      if optTruthy e.department_id then
        (depts.find? (fun dep => dep.id == e.department_id.getD 0)).map deptRowToDict
      else none
  { user := userRowToDict cu
    employee := employee_data
    department := department_data }

/-- The request body of `POST /training/types` (`schemas.TrainingTypeCreate`):
the scoping lists default to `[]`, `is_mandatory` to `False`. -/
structure TrainingTypeCreate where
  training_name : String
  description : Option String
  required_for_departments : List Nat
  required_for_positions : List String
  validity_period_months : Option Nat
  is_mandatory : Bool
  created_by : Option Nat
deriving DecidableEq, Repr

/-- A row of the `training_requirements` table as inserted by the fan-out. -/
structure TrainingRequirement where
  employee_id : Nat
  training_type_id : Nat
  required_by_date : Nat
  status : String
  assigned_by : Nat
deriving DecidableEq, Repr

/-- The `or_(*conditions)` employee filter of the fan-out in
`create_training_type` (training.py lines 123-137): one equality
condition per scoped department and per scoped position. -/
def trainingFanoutMatch (td : TrainingTypeCreate) (e : Employee) : Bool :=
  td.required_for_departments.any (fun dd => e.department_id == some dd) ||
  td.required_for_positions.any (fun p => e.position == some p)

/-- `create_training_type` (training.py lines 96-166), reduced to its
fan-out effect: when the type is mandatory and scoped to a truthy (i.e.
non-empty) department or position list, one pending requirement due in 30
days is inserted per employee matching the OR of the scoping conditions.
The query has no filter on `employees.status`. -/
def createTrainingType (emps : List Employee) (td : TrainingTypeCreate)
    (cu : User) (typeId : Nat) (today : Nat) : List TrainingRequirement :=
  if td.is_mandatory &&
     (!td.required_for_departments.isEmpty || !td.required_for_positions.isEmpty) then
    (emps.filter (trainingFanoutMatch td)).map (fun e =>
      { employee_id := e.id
        training_type_id := typeId
        required_by_date := today + 30
        status := "pending"
        assigned_by := cu.id })
  else []

/-- Modelled from the spec: "position matches `*manager*` or `*lead*`
(case-insensitive)" — the pattern occurs contiguously in the lower-cased
position of a non-null position column. -/
def containsCI (pos : Option String) (pat : String) : Prop :=
  ∃ s l r, pos = some s ∧
    strLower s = l ++ strLower pat ++ r

/-- Modelled from the spec: an active employee of department `d` whose
position contains "manager" or "lead" case-insensitively. -/
def isDeptHandler (d : Nat) (e : Employee) : Prop :=
  e.department_id = some d ∧ e.status = some "active" ∧
  (containsCI e.position "manager" ∨ containsCI e.position "lead")

/- Concrete instances used by counterexamples and witnesses. -/

/-- An administrator principal. -/
def adminU : User :=
  { id := 1, username := "alice", password_hash := "h1", user_type := "staff"
    employee_id := none, department_id := none, role := "admin"
    is_active := true, created_at := 0, updated_at := 0 }

/-- A manager whose `department_id` is `NULL`. -/
def mgrNoDept : User :=
  { id := 2, username := "mona", password_hash := "h2", user_type := "staff"
    employee_id := none, department_id := none, role := "manager"
    is_active := true, created_at := 0, updated_at := 0 }

/-- A staff principal of department 1. -/
def staffD1 : User :=
  { id := 3, username := "sam", password_hash := "h3", user_type := "staff"
    employee_id := some 3, department_id := some 1, role := "staff"
    is_active := true, created_at := 0, updated_at := 0 }

/-- An inactive user row. -/
def inactiveU : User :=
  { id := 4, username := "bob", password_hash := "h4", user_type := "staff"
    employee_id := none, department_id := none, role := "staff"
    is_active := false, created_at := 0, updated_at := 0 }

/-- A high-severity complaint with `department_involved` NULL and
`is_private` false. -/
def highNullDeptComplaint : Complaint :=
  { customer_name := some "c", customer_email := none, customer_phone := none
    complaint_type := "service", description := "late order"
    department_involved := none, reported_by := none, assigned_to := none
    severity := some "high", status := some "open", resolution := none
    is_private := some false, resolved_at := none }

/-- A mild complaint in department 1. -/
def mildD1Complaint : Complaint :=
  { customer_name := some "c", customer_email := none, customer_phone := none
    complaint_type := "service", description := "cold food"
    department_involved := some 1, reported_by := none, assigned_to := none
    severity := some "low", status := some "open", resolution := none
    is_private := some false, resolved_at := none }

/-- A complaint already resolved at tick 100, assigned to employee 1. -/
def resolvedComplaint : Complaint :=
  { customer_name := some "c", customer_email := none, customer_phone := none
    complaint_type := "service", description := "late order"
    department_involved := some 1, reported_by := none, assigned_to := some 1
    severity := some "low", status := some "resolved", resolution := none
    is_private := some false, resolved_at := some 100 }

/-- A task already completed at tick 100. -/
def doneTask : Task :=
  { title := "restock", description := none, department_id := some 1
    assigned_by := some 1, assigned_to := some 1, assigned_to_department := none
    is_urgent := some false, due_date := none, status := some "completed"
    is_completed := some true, completed_at := some 100 }

/-- A monitoring point with bounds 30–40 °F. -/
def mpEx : MonitoringPoint :=
  { id := 1, department_id := some 1
    min_temp_fahrenheit := 30, max_temp_fahrenheit := 40 }

/-- A log request of 55 °F against point 1 (out of range, deviation 20
from the midpoint 35). -/
def hotLogReq : TempLogCreate :=
  { monitoring_point_id := 1, recorded_temp_fahrenheit := 55
    recorded_by := none, notes := none, shift := some "am" }

/-- A log request of 35 °F against point 1 (inside the range). -/
def okLogReq : TempLogCreate :=
  { monitoring_point_id := 1, recorded_temp_fahrenheit := 35
    recorded_by := some 2, notes := none, shift := some "am" }

/-- An active department-2 employee whose position contains "Manager". -/
def deptLead : Employee :=
  { id := 42, first_name := "Dana", last_name := "Lee"
    department_id := some 2, position := some "Assistant Manager"
    status := some "active" }

/-- An active department-2 employee with a non-matching position. -/
def deptClerk : Employee :=
  { id := 43, first_name := "Cleo", last_name := "Park"
    department_id := some 2, position := some "Clerk"
    status := some "active" }

/-- An inactive department-2 employee. -/
def inactiveEmp : Employee :=
  { id := 5, first_name := "Ina", last_name := "Moss"
    department_id := some 2, position := some "Clerk"
    status := some "inactive" }

/-- A complaint creation request for department 2 with no assignee. -/
def complaintReqD2 : ComplaintCreate :=
  { customer_name := some "c", customer_email := none, customer_phone := none
    complaint_type := "service", description := "stale bread"
    department_involved := some 2, severity := "medium", status := "open"
    resolution := none, is_private := false, reported_by := none
    assigned_to := none }

/-- A high-severity complaint creation request with `is_private = False`. -/
def highSevReq : ComplaintCreate :=
  { customer_name := some "c", customer_email := none, customer_phone := none
    complaint_type := "service", description := "injury"
    department_involved := none, severity := "high", status := "open"
    resolution := none, is_private := false, reported_by := none
    assigned_to := none }

/-- A medium-severity complaint creation request with `is_private = False`. -/
def medSevReq : ComplaintCreate :=
  { customer_name := some "c", customer_email := none, customer_phone := none
    complaint_type := "service", description := "slow service"
    department_involved := none, severity := "medium", status := "open"
    resolution := none, is_private := false, reported_by := none
    assigned_to := none }

/-- A pre-order creation request for department 2 with no assignee. -/
def preorderReqD2 : PreOrderCreate :=
  { customer_name := "c", customer_email := none, customer_phone := none
    order_type := "cake", description := "birthday cake"
    target_department := some 2, quantity := some 1, estimated_price := none
    pickup_date := none, special_instructions := none, status := "pending"
    requested_by := none, assigned_to := none }

/-- An announcement that expired at tick 5. -/
def expiredAnn : Announcement :=
  { id := 1, title := "sale", message := "old sale", announcement_type := none
    target_department := none, created_by := none, priority := some "normal"
    is_active := some true, expires_at := some 5, target_roles := none
    created_at := 1 }

/-- Department row "Bakery" (id 9). -/
def bakeryDept : Department :=
  { id := 9, name := "Bakery", department_code := some "BAK"
    description := none, manager_id := none, is_active := some true }

/-- A store whose only department is Bakery, still referenced by one
employee. -/
def storeWithEmp : Store :=
  { departments := [bakeryDept]
    employees := [{ id := 6, first_name := "Eve", last_name := "Ng"
                    department_id := some 9, position := some "Baker"
                    status := some "active" }]
    users := [], tasks := [], complaints := [], preorders := []
    inventoryRequests := [], equipment := [], monitoringPoints := []
    announcements := [], announcementReads := [] }

/-- A store whose only department is Bakery, referenced only by a task. -/
def storeNoRefs : Store :=
  { departments := [bakeryDept]
    employees := [deptLead]
    users := [adminU]
    tasks := [{ title := "clean", description := none, department_id := some 9
                assigned_by := none, assigned_to := none
                assigned_to_department := some 9, is_urgent := none
                due_date := none, status := some "pending"
                is_completed := some false, completed_at := none }]
    complaints := [], preorders := [], inventoryRequests := []
    equipment := [], monitoringPoints := [], announcements := []
    announcementReads := [] }

/-- A mandatory training type scoped to department 2. -/
def mandatoryType : TrainingTypeCreate :=
  { training_name := "Food Safety", description := none
    required_for_departments := [2], required_for_positions := []
    validity_period_months := some 12, is_mandatory := true
    created_by := none }

/-! Helper lemmas. -/

theorem find?_congr_pred (l : List α) (p q : α → Bool) (h : ∀ a, p a = q a) :
    l.find? p = l.find? q := by
  induction l with
  | nil => rfl
  | cons a as ih =>
    simp only [List.find?]
    rw [h a]
    cases q a with
    | true => rfl
    | false => exact ih

theorem length_insertSorted (le : α → α → Bool) (a : α) (l : List α) :
    (insertSorted le a l).length = l.length + 1 := by
  induction l with
  | nil => rfl
  | cons b bs ih =>
    simp only [insertSorted]
    cases le a b with
    | true => simp
    | false => simp [ih]

theorem length_sortByLe (le : α → α → Bool) (l : List α) :
    (sortByLe le l).length = l.length := by
  induction l with
  | nil => rfl
  | cons a as ih => simp [sortByLe, length_insertSorted, ih]

@[simp] theorem option_beq_some_some [BEq α] (a b : α) :
    ((some a : Option α) == some b) = (a == b) := rfl

@[simp] theorem option_beq_some_none [BEq α] (a : α) :
    ((some a : Option α) == none) = false := rfl

@[simp] theorem option_beq_none_some [BEq α] (a : α) :
    ((none : Option α) == some a) = false := rfl

@[simp] theorem bne_eq_not_beq [BEq α] (a b : α) : (a != b) = !(a == b) := rfl

/-! C1: complaint visibility. -/

/-- C1 (counterexample): a manager with a NULL `department_id` looking at a
high-severity complaint with a NULL `department_involved` is granted access
by the detail endpoint (Python `None == None`) but filtered out by the list
endpoint (the manager guard requires a truthy department, so the staff
filter applies and `severity != 'high'` fails), while the claimed predicate
grants visibility — so the two endpoints do not apply the same predicate
and the list endpoint violates the claimed iff. -/
theorem complaint_visibility_counterexample :
    complaintDetailVisible mgrNoDept highNullDeptComplaint = true ∧
    complaintsListVisible mgrNoDept highNullDeptComplaint = false ∧
    specComplaintVisible mgrNoDept highNullDeptComplaint = true := by
  decide

/-- C1 (amended): whenever the principal has a non-null, non-zero
`department_id` and the complaint's `severity` and `is_private` columns are
non-null, the list filter, the detail check and the claimed predicate all
agree: admin sees all, a manager sees exactly their department's rows, and
everyone else sees exactly their department's non-high, non-private rows. -/
theorem complaint_visibility_amended (u : User) (c : Complaint) (d : Nat)
    (s : String) (b : Bool)
    (hd : u.department_id = some d) (hd0 : d ≠ 0)
    (hs : c.severity = some s) (hb : c.is_private = some b) :
    complaintsListVisible u c = specComplaintVisible u c ∧
    complaintDetailVisible u c = specComplaintVisible u c := by
  have hd0' : (d != 0) = true := by simpa using hd0
  by_cases hA : u.role = "admin"
  · constructor <;>
      simp [complaintsListVisible, complaintDetailVisible, specComplaintVisible, hA]
  · have hA' : (u.role == "admin") = false := by simp [hA]
    cases hc : c.department_involved with
    | none =>
      constructor <;>
        simp [complaintsListVisible, complaintDetailVisible, specComplaintVisible,
          optTruthy, sqlEqOpt, sqlNeStr, sqlNeTrue, hd, hs, hb, hc, hA', hd0']
    | some e =>
      by_cases he : e = d
      · subst he
        by_cases hM : u.role = "manager"
        · have hM' : (u.role == "manager") = true := by simp [hM]
          constructor <;>
            simp [complaintsListVisible, complaintDetailVisible, specComplaintVisible,
              optTruthy, sqlEqOpt, sqlNeStr, sqlNeTrue, hd, hs, hb, hc, hA', hM',
              hd0', hd0]
        · have hM' : (u.role == "manager") = false := by simp [hM]
          by_cases hSev : s = "high"
          · have hS' : (s == "high") = true := by simp [hSev]
            constructor <;> cases b <;>
              simp [complaintsListVisible, complaintDetailVisible, specComplaintVisible,
                optTruthy, sqlEqOpt, sqlNeStr, sqlNeTrue, hd, hs, hb, hc, hA', hM',
                hd0', hS']
          · have hS' : (s == "high") = false := by simp [hSev]
            constructor <;> cases b <;>
              simp [complaintsListVisible, complaintDetailVisible, specComplaintVisible,
                optTruthy, sqlEqOpt, sqlNeStr, sqlNeTrue, hd, hs, hb, hc, hA', hM',
                hd0', hS']
      · have hE' : (e == d) = false := by simp [he]
        have hE2 : (d == e) = false := by
          simp only [beq_eq_false_iff_ne]
          exact fun h => he h.symm
        constructor <;>
          simp [complaintsListVisible, complaintDetailVisible, specComplaintVisible,
            optTruthy, sqlEqOpt, sqlNeStr, sqlNeTrue, hd, hs, hb, hc, hA', hd0',
            hE', hE2]

/-- C1 witness: the amended equivalence evaluated for a department-1 staff
principal and a mild department-1 complaint, which both endpoints show. -/
theorem complaint_visibility_amended_witness :
    complaintsListVisible staffD1 mildD1Complaint =
      specComplaintVisible staffD1 mildD1Complaint ∧
    complaintDetailVisible staffD1 mildD1Complaint =
      specComplaintVisible staffD1 mildD1Complaint ∧
    specComplaintVisible staffD1 mildD1Complaint = true := by
  have h := complaint_visibility_amended staffD1 mildD1Complaint 1 "low" false
    rfl (by decide) rfl rfl
  exact ⟨h.1, h.2, by decide⟩

/-! C2: temperature log range computation and violation fan-out. -/

/-- C2: against an existing monitoring point, the stored `is_within_range`
is exactly `min ≤ recorded ≤ max` computed at write time; an out-of-range
log creates exactly one violation referencing the new log, with severity
`"high"` iff the deviation from the bounds' midpoint exceeds 10, else
`"medium"`; an in-range log creates zero violations. -/
theorem temperature_log_violation_spec (points : List MonitoringPoint)
    (ld : TempLogCreate) (uid lid : Nat) (mp : MonitoringPoint)
    (hfind : points.find? (fun p => p.id == ld.monitoring_point_id) = some mp) :
    ∃ log viols, createTemperatureLog points ld uid lid = .ok (log, viols) ∧
      ((log.is_within_range = true) ↔
        (mp.min_temp_fahrenheit ≤ ld.recorded_temp_fahrenheit ∧
         ld.recorded_temp_fahrenheit ≤ mp.max_temp_fahrenheit)) ∧
      (¬(mp.min_temp_fahrenheit ≤ ld.recorded_temp_fahrenheit ∧
         ld.recorded_temp_fahrenheit ≤ mp.max_temp_fahrenheit) →
        viols.length = 1 ∧
        ∀ v ∈ viols,
          v.log_id = lid ∧ v.monitoring_point_id = ld.monitoring_point_id ∧
          v.severity = (if |ld.recorded_temp_fahrenheit -
              (mp.min_temp_fahrenheit + mp.max_temp_fahrenheit) / 2| > 10
            then "high" else "medium")) ∧
      ((mp.min_temp_fahrenheit ≤ ld.recorded_temp_fahrenheit ∧
        ld.recorded_temp_fahrenheit ≤ mp.max_temp_fahrenheit) →
        viols = []) := by
  unfold createTemperatureLog
  rw [hfind]
  by_cases hin1 : mp.min_temp_fahrenheit ≤ ld.recorded_temp_fahrenheit
  · by_cases hin2 : ld.recorded_temp_fahrenheit ≤ mp.max_temp_fahrenheit
    · refine ⟨_, _, rfl, ?_, ?_, ?_⟩
      · simp [decide_eq_true hin1, decide_eq_true hin2, hin1, hin2]
      · intro h
        exact absurd ⟨hin1, hin2⟩ h
      · intro _
        simp [decide_eq_true hin1, decide_eq_true hin2]
    · refine ⟨_, _, rfl, ?_, ?_, ?_⟩
      · simp [decide_eq_true hin1, decide_eq_false hin2, hin2]
      · intro _
        refine ⟨by simp [decide_eq_true hin1, decide_eq_false hin2], ?_⟩
        intro v hv
        simp only [decide_eq_true hin1, decide_eq_false hin2, Bool.and_false,
          Bool.not_false, if_true, List.mem_singleton] at hv
        subst hv
        exact ⟨rfl, rfl, rfl⟩
      · intro h
        exact absurd h.2 hin2
  · refine ⟨_, _, rfl, ?_, ?_, ?_⟩
    · simp [decide_eq_false hin1, hin1]
    · intro _
      refine ⟨by simp [decide_eq_false hin1], ?_⟩
      intro v hv
      simp only [decide_eq_false hin1, Bool.false_and, Bool.not_false, if_true,
        List.mem_singleton] at hv
      subst hv
      exact ⟨rfl, rfl, rfl⟩
    · intro h
      exact absurd h.1 hin1

/-- C2 witness: point 1 has bounds 30–40; a 55 °F reading is stored
out-of-range and spawns one open, high-severity violation; a 35 °F reading
is stored in-range with no violation. -/
theorem temperature_log_violation_witness :
    (∃ log viols, createTemperatureLog [mpEx] hotLogReq 9 100 = .ok (log, viols) ∧
      log.is_within_range = false ∧ viols.length = 1 ∧
      ∀ v ∈ viols, v.log_id = 100 ∧ v.severity = "high") ∧
    (∃ log viols, createTemperatureLog [mpEx] okLogReq 9 101 = .ok (log, viols) ∧
      log.is_within_range = true ∧ viols = []) := by
  constructor
  · obtain ⟨log, viols, h1, h2, h3, h4⟩ :=
      temperature_log_violation_spec [mpEx] hotLogReq 9 100 mpEx rfl
    have hout : ¬((mpEx.min_temp_fahrenheit ≤ hotLogReq.recorded_temp_fahrenheit) ∧
        (hotLogReq.recorded_temp_fahrenheit ≤ mpEx.max_temp_fahrenheit)) := by
      decide
    obtain ⟨hlen, hall⟩ := h3 hout
    refine ⟨log, viols, h1, ?_, hlen, ?_⟩
    · cases hwr : log.is_within_range with
      | false => rfl
      | true => exact absurd (h2.mp hwr) hout
    · intro v hv
      obtain ⟨ha, _, hc⟩ := hall v hv
      refine ⟨ha, ?_⟩
      rw [hc]
      have hdev : |hotLogReq.recorded_temp_fahrenheit -
          (mpEx.min_temp_fahrenheit + mpEx.max_temp_fahrenheit) / 2| > (10 : ℚ) := by
        norm_num [hotLogReq, mpEx]
      rw [if_pos hdev]
  · obtain ⟨log, viols, h1, h2, _, h4⟩ :=
      temperature_log_violation_spec [mpEx] okLogReq 9 101 mpEx rfl
    have hok : (mpEx.min_temp_fahrenheit ≤ okLogReq.recorded_temp_fahrenheit) ∧
        (okLogReq.recorded_temp_fahrenheit ≤ mpEx.max_temp_fahrenheit) := by
      decide
    exact ⟨log, viols, h1, h2.mpr hok, h4 hok⟩

/-! C3: terminal-status timestamping. -/

/-- C3 (code bug): repeating an identical terminal status update re-sets
the timestamp.  A task already `"completed"` at tick 100, updated again to
`"completed"` at tick 200, gets `completed_at` overwritten to 200; a
complaint already `"resolved"` at tick 100, updated again to `"resolved"`
at tick 200, gets `resolved_at` overwritten to 200 — contradicting the
claim that the timestamp is set exactly once, on the transition edge. -/
theorem terminal_timestamp_rewritten_on_repeat :
    doneTask.status = some "completed" ∧ doneTask.completed_at = some 100 ∧
    updateTaskStatus adminU doneTask (some "completed") 200 =
      .ok { doneTask with completed_at := some 200 } ∧
    resolvedComplaint.status = some "resolved" ∧
    resolvedComplaint.resolved_at = some 100 ∧
    updateComplaintStatus adminU resolvedComplaint (some "resolved") 200 =
      .ok { resolvedComplaint with resolved_at := some 200 } := by
  exact ⟨rfl, rfl, rfl, rfl, rfl, rfl⟩

/-! C10: high-severity complaints are stored private. -/

theorem createComplaint_is_private_eq (emps : List Employee)
    (req : ComplaintCreate) (u : User) :
    (createComplaint emps req u).is_private =
      some (req.is_private || req.severity == "high") := by
  unfold createComplaint
  cases h : (optTruthy req.department_involved && !optTruthy req.assigned_to) with
  | false => simp [h]
  | true =>
    simp only [h, if_true]
    cases hf : findDeptHandler emps (req.department_involved.getD 0) <;> simp [hf]

/-- C10: `create_complaint` stores `is_private = is_private or (severity ==
"high")`, so a high-severity request is stored private regardless of the
requested flag, and any other severity stores exactly the requested flag. -/
theorem high_severity_complaint_forced_private (emps : List Employee)
    (req : ComplaintCreate) (u : User) :
    (req.severity = "high" → (createComplaint emps req u).is_private = some true) ∧
    (req.severity ≠ "high" →
      (createComplaint emps req u).is_private = some req.is_private) := by
  constructor
  · intro h
    rw [createComplaint_is_private_eq]
    simp [h]
  · intro h
    rw [createComplaint_is_private_eq]
    simp [beq_eq_false_iff_ne.mpr h]

/-- C10 witness: a high-severity request with `is_private = False` is
stored private; a medium-severity request with `is_private = False` is
stored non-private. -/
theorem high_severity_forced_private_witness :
    (createComplaint [] highSevReq adminU).is_private = some true ∧
    (createComplaint [] medSevReq adminU).is_private = some false := by
  constructor
  · exact (high_severity_complaint_forced_private [] highSevReq adminU).1 rfl
  · have h := (high_severity_complaint_forced_private [] medSevReq adminU).2
      (by decide)
    simpa [medSevReq] using h

/-! C4: auto-assignment to a department handler. -/

theorem startsWithL_iff (pat s : List Char) :
    startsWithL pat s = true ↔ ∃ r, s = pat ++ r := by
  induction pat generalizing s with
  | nil => simp [startsWithL]
  | cons p ps ih =>
    cases s with
    | nil => simp [startsWithL]
    | cons c cs =>
      simp only [startsWithL, Bool.and_eq_true, beq_iff_eq, ih, List.cons_append,
        List.cons.injEq]
      constructor
      · rintro ⟨hpc, r, hr⟩
        exact ⟨r, hpc.symm, hr⟩
      · rintro ⟨r, hcp, hr⟩
        exact ⟨hcp.symm, r, hr⟩

theorem containsSeg_iff (pat s : List Char) :
    containsSeg pat s = true ↔ ∃ l r, s = l ++ pat ++ r := by
  induction s with
  | nil =>
    simp only [containsSeg, List.isEmpty_iff]
    constructor
    · rintro rfl
      exact ⟨[], [], rfl⟩
    · rintro ⟨l, r, h⟩
      cases l with
      | nil =>
        cases pat with
        | nil => rfl
        | cons p ps => simp at h
      | cons x xs => simp at h
  | cons c cs ih =>
    simp only [containsSeg, Bool.or_eq_true, startsWithL_iff, ih]
    constructor
    · rintro (⟨r, hr⟩ | ⟨l, r, hr⟩)
      · exact ⟨[], r, by simpa using hr⟩
      · exact ⟨c :: l, r, by simp [hr]⟩
    · rintro ⟨l, r, hr⟩
      cases l with
      | nil =>
        left
        exact ⟨r, by simpa using hr⟩
      | cons x xs =>
        right
        simp only [List.cons_append, List.cons.injEq] at hr
        exact ⟨xs, r, hr.2⟩

theorem ilikeContains_iff (pos : Option String) (pat : String) :
    ilikeContains pos pat = true ↔ containsCI pos pat := by
  cases pos with
  | none => simp [ilikeContains, containsCI]
  | some s =>
    simp only [ilikeContains, containsCI, containsSeg_iff]
    constructor
    · rintro ⟨l, r, h⟩
      exact ⟨s, l, r, rfl, h⟩
    · rintro ⟨s', l, r, hs', h⟩
      obtain rfl : s = s' := by injection hs'
      exact ⟨l, r, h⟩

theorem handlerPred_iff (d : Nat) (e : Employee) :
    (e.department_id == some d && e.status == some "active" &&
      (ilikeContains e.position "manager" || ilikeContains e.position "lead")) = true
    ↔ isDeptHandler d e := by
  simp only [isDeptHandler, ← ilikeContains_iff, Bool.and_eq_true, Bool.or_eq_true,
    beq_iff_eq]
  tauto

/-- C4: creating a complaint or pre-order for department `d` with no
explicit assignee assigns the first employee row that is an active
department-`d` handler (position containing "manager" or "lead"
case-insensitively); when no such employee exists, `assigned_to` stays
null and the creation still succeeds (both creation functions are total). -/
theorem auto_assign_department_handler (emps : List Employee)
    (reqC : ComplaintCreate) (reqP : PreOrderCreate) (u v : User) (d : Nat)
    (hdC : reqC.department_involved = some d) (hd0 : d ≠ 0)
    (haC : reqC.assigned_to = none)
    (hdP : reqP.target_department = some d) (haP : reqP.assigned_to = none) :
    (createComplaint emps reqC u).assigned_to =
      (findDeptHandler emps d).map Employee.id ∧
    (createPreorder emps reqP v).assigned_to =
      (findDeptHandler emps d).map Employee.id ∧
    ((∀ e ∈ emps, ¬ isDeptHandler d e) →
      (createComplaint emps reqC u).assigned_to = none ∧
      (createPreorder emps reqP v).assigned_to = none) ∧
    (∀ e, findDeptHandler emps d = some e → e ∈ emps ∧ isDeptHandler d e) := by
  have hd0' : (d != 0) = true := by simpa using hd0
  have h1 : (createComplaint emps reqC u).assigned_to =
      (findDeptHandler emps d).map Employee.id := by
    unfold createComplaint
    simp only [hdC, haC, optTruthy, hd0', Option.getD_some, Bool.not_false,
      Bool.and_true]
    cases hf : findDeptHandler emps d <;> simp [hf, haC]
  have h2 : (createPreorder emps reqP v).assigned_to =
      (findDeptHandler emps d).map Employee.id := by
    unfold createPreorder
    simp only [hdP, haP, optTruthy, hd0', Option.getD_some, Bool.not_false,
      Bool.and_true]
    cases hf : findDeptHandler emps d <;> simp [hf, haP]
  refine ⟨h1, h2, ?_, ?_⟩
  · intro hnone
    have hfn : findDeptHandler emps d = none := by
      unfold findDeptHandler
      rw [List.find?_eq_none]
      intro e he hpe
      exact hnone e he ((handlerPred_iff d e).mp hpe)
    rw [h1, h2, hfn]
    exact ⟨rfl, rfl⟩
  · intro e hfe
    unfold findDeptHandler at hfe
    have hp := List.find?_some hfe
    exact ⟨List.mem_of_find?_eq_some hfe, (handlerPred_iff d e).mp hp⟩

/-- C4 witness: in a two-employee department-2 roster where only the
second row's position ("Assistant Manager") matches, both creations
auto-assign employee 42; with only the clerk in the roster, both stay
unassigned. -/
theorem auto_assign_department_handler_witness :
    (createComplaint [deptClerk, deptLead] complaintReqD2 staffD1).assigned_to =
      some 42 ∧
    (createPreorder [deptClerk, deptLead] preorderReqD2 staffD1).assigned_to =
      some 42 ∧
    (createComplaint [deptClerk] complaintReqD2 staffD1).assigned_to = none ∧
    (createPreorder [deptClerk] preorderReqD2 staffD1).assigned_to = none := by
  have h := auto_assign_department_handler [deptClerk, deptLead] complaintReqD2
    preorderReqD2 staffD1 staffD1 2 rfl (by decide) rfl rfl rfl
  have h' := auto_assign_department_handler [deptClerk] complaintReqD2
    preorderReqD2 staffD1 staffD1 2 rfl (by decide) rfl rfl rfl
  refine ⟨?_, ?_, ?_, ?_⟩
  · rw [h.1]; rfl
  · rw [h.2.1]; rfl
  · rw [h'.1]; rfl
  · rw [h'.2.1]; rfl

/-! C5: the pagination envelope. -/

theorem sorted_take_drop_nil {α} (c1 c2 : Bool) (f g : α → α → Bool)
    (l : List α) (skip limit : Nat) (h : l.length ≤ skip) :
    ((if c1 then if c2 then sortByLe f l else sortByLe g l else l).drop
      skip).take limit = [] := by
  have hlen : (if c1 then if c2 then sortByLe f l else sortByLe g l
      else l).length ≤ skip := by
    split_ifs <;> simp [length_sortByLe, h]
  rw [List.drop_eq_nil_of_le hlen]
  simp

theorem sorted_take_drop_filter_nil {α} (c1 c2 : Bool) (f g : α → α → Bool)
    (l : List α) (p : α → Bool) (skip limit : Nat) (h : l.length ≤ skip) :
    (((if c1 then if c2 then sortByLe f l else sortByLe g l else l).drop
      skip).take limit).filter p = [] := by
  rw [sorted_take_drop_nil c1 c2 f g l skip limit h]
  rfl

/-- C5 (counterexample): for `get_announcements` the count query omits the
expiry condition and the role/department visibility is applied in Python
after pagination, so with a single already-expired announcement an admin
gets `items = []` while `total = 1` — `total` does not equal the number of
rows matching all applied filters including the visibility/expiry
conditions (which is 0). -/
theorem pagination_total_counterexample :
    (getAnnouncements [expiredAnn] adminU 0 20 none none none none
      "created_at" "desc" none 10).items = [] ∧
    (getAnnouncements [expiredAnn] adminU 0 20 none none none none
      "created_at" "desc" none 10).pagination.total = 1 := by
  decide

/-- C5 (amended): for both modelled list endpoints and all inputs, the
envelope satisfies `len(items) ≤ limit`, `has_more = (offset + limit <
total)`, and `offset ≥ total` yields empty items with `has_more = false`;
`total` is the pre-pagination count of rows matching the caller-supplied
filters and search only — for announcements this excludes the expiry
condition and the role/department visibility filtering (applied after the
count, the latter even after pagination), while for departments it is the
count under all applied filters. -/
theorem pagination_envelope_amended
    (anns : List Announcement) (depts : List Department) (u : User)
    (skip limit : Nat) (ia : Option Bool) (td : Option Nat)
    (atype : Option String) (pr : Option String)
    (sortA orderA sortD orderD : String)
    (searchA searchD : Option String) (now : Nat) (iaD : Option Bool) :
    (getAnnouncements anns u skip limit ia td atype pr sortA orderA searchA
        now).items.length ≤ limit ∧
    (getAnnouncements anns u skip limit ia td atype pr sortA orderA searchA
        now).pagination.has_more =
      decide (skip + limit <
        (getAnnouncements anns u skip limit ia td atype pr sortA orderA
          searchA now).pagination.total) ∧
    (getAnnouncements anns u skip limit ia td atype pr sortA orderA searchA
        now).pagination.total =
      (anns.filter (announcementCallerFilter ia td atype pr searchA)).length ∧
    ((getAnnouncements anns u skip limit ia td atype pr sortA orderA searchA
        now).pagination.total ≤ skip →
      (getAnnouncements anns u skip limit ia td atype pr sortA orderA searchA
        now).items = [] ∧
      (getAnnouncements anns u skip limit ia td atype pr sortA orderA searchA
        now).pagination.has_more = false) ∧
    (getDepartments depts skip limit iaD sortD orderD
        searchD).items.length ≤ limit ∧
    (getDepartments depts skip limit iaD sortD orderD
        searchD).pagination.has_more =
      decide (skip + limit <
        (getDepartments depts skip limit iaD sortD orderD
          searchD).pagination.total) ∧
    (getDepartments depts skip limit iaD sortD orderD
        searchD).pagination.total =
      (depts.filter (departmentCallerFilter iaD searchD)).length ∧
    ((getDepartments depts skip limit iaD sortD orderD
        searchD).pagination.total ≤ skip →
      (getDepartments depts skip limit iaD sortD orderD searchD).items = [] ∧
      (getDepartments depts skip limit iaD sortD orderD
        searchD).pagination.has_more = false) := by
  refine ⟨?_, rfl, rfl, ?_, ?_, rfl, rfl, ?_⟩
  · exact le_trans (List.length_filter_le _ _) (List.length_take_le _ _)
  · intro h
    have h' : (List.filter (announcementCallerFilter ia td atype pr searchA)
        anns).length ≤ skip := h
    refine ⟨?_, ?_⟩
    · exact sorted_take_drop_filter_nil _ _ _ _ _ _ _ _
        (le_trans (List.length_filter_le _ _) h')
    · exact decide_eq_false (by omega)
  · exact List.length_take_le _ _
  · intro h
    have h' : (List.filter (departmentCallerFilter iaD searchD)
        depts).length ≤ skip := h
    refine ⟨?_, ?_⟩
    · exact sorted_take_drop_nil _ _ _ _ _ _ _ h'
    · exact decide_eq_false (by omega)

/-- C5 witness: the amended envelope facts evaluated at `skip = 5` against
one-row announcement and department tables (so `offset ≥ total`), yielding
empty pages with `has_more = false`. -/
theorem pagination_envelope_amended_witness :
    (getAnnouncements [expiredAnn] staffD1 5 2 none none none none
      "created_at" "desc" none 10).items = [] ∧
    (getAnnouncements [expiredAnn] staffD1 5 2 none none none none
      "created_at" "desc" none 10).pagination.has_more = false ∧
    (getDepartments [bakeryDept] 5 2 none "name" "asc" none).items = [] ∧
    (getDepartments [bakeryDept] 5 2 none "name" "asc"
      none).pagination.has_more = false := by
  obtain ⟨_, _, _, h4, _, _, _, h8⟩ :=
    pagination_envelope_amended [expiredAnn] [bakeryDept] staffD1 5 2
      none none none none "created_at" "desc" "name" "asc" none none 10 none
  exact ⟨(h4 (by decide)).1, (h4 (by decide)).2,
    (h8 (by decide)).1, (h8 (by decide)).2⟩

/-! C6: department deletion. -/

theorem mem_map_nullOutRef_ne {α} (get : α → Option Nat)
    (set : α → Option Nat → α) (hget : ∀ x v, get (set x v) = v) (d : Nat)
    (l : List α) : ∀ x ∈ l.map (nullOutRef get set d), get x ≠ some d := by
  intro x hx
  obtain ⟨y, _, rfl⟩ := List.mem_map.1 hx
  unfold nullOutRef
  split
  · rw [hget]
    simp
  · next hcond => simpa using hcond

theorem mem_map_pres_ne {α} (get1 : α → Option Nat) (f : α → α)
    (hf : ∀ x, get1 (f x) = get1 x) (d : Nat) (l : List α)
    (h : ∀ x ∈ l, get1 x ≠ some d) :
    ∀ x ∈ l.map f, get1 x ≠ some d := by
  intro x hx
  obtain ⟨y, hy, rfl⟩ := List.mem_map.1 hx
  rw [hf]
  exact h y hy

/-- C6: deleting an existing department with at least one referencing
employee (or, employees clear, user) fails with a 400 naming the count and
leaves the store untouched; with zero referencing employees and users it
succeeds with the documented message, removes the department row, and
nulls out every department reference in tasks, complaints, pre-orders,
inventory requests, equipment, monitoring points, announcements and
announcement reads. -/
theorem delete_department_spec (s : Store) (d : Nat)
    (hex : (s.departments.find? (fun x => x.id == d)).isSome) :
    ((s.employees.filter (fun e => e.department_id == some d)) ≠ [] →
      deleteDepartment s d =
        (s, .error ⟨400, deptEmployeesMsg d
          (s.employees.filter (fun e => e.department_id == some d)).length⟩)) ∧
    ((s.employees.filter (fun e => e.department_id == some d)) = [] →
     (s.users.filter (fun x => x.department_id == some d)) ≠ [] →
      deleteDepartment s d =
        (s, .error ⟨400, deptUsersMsg d
          (s.users.filter (fun x => x.department_id == some d)).length⟩)) ∧
    ((s.employees.filter (fun e => e.department_id == some d)) = [] →
     (s.users.filter (fun x => x.department_id == some d)) = [] →
      (deleteDepartment s d).2 = .ok "Department deleted successfully" ∧
      (deleteDepartment s d).1 =
        { breakDepartmentDependencies s d with
            departments := (breakDepartmentDependencies s d).departments.filter
              (fun x => !(x.id == d)) } ∧
      (∀ x ∈ (deleteDepartment s d).1.departments, x.id ≠ d) ∧
      (∀ t ∈ (deleteDepartment s d).1.tasks,
        t.department_id ≠ some d ∧ t.assigned_to_department ≠ some d) ∧
      (∀ c ∈ (deleteDepartment s d).1.complaints,
        c.department_involved ≠ some d) ∧
      (∀ p ∈ (deleteDepartment s d).1.preorders,
        p.target_department ≠ some d) ∧
      (∀ r ∈ (deleteDepartment s d).1.inventoryRequests,
        r.requesting_department ≠ some d ∧ r.fulfilling_department ≠ some d) ∧
      (∀ e ∈ (deleteDepartment s d).1.equipment, e.department_id ≠ some d) ∧
      (∀ m ∈ (deleteDepartment s d).1.monitoringPoints,
        m.department_id ≠ some d) ∧
      (∀ a ∈ (deleteDepartment s d).1.announcements,
        a.target_department ≠ some d) ∧
      (∀ ar ∈ (deleteDepartment s d).1.announcementReads,
        ar.department_id ≠ some d)) := by
  have hnotnone : (s.departments.find? (fun x => x.id == d)).isNone = false := by
    obtain ⟨dep, hfind⟩ := Option.isSome_iff_exists.mp hex
    rw [hfind]
    rfl
  refine ⟨?_, ?_, ?_⟩
  · intro hne
    have he1 : (s.employees.filter
        (fun e => e.department_id == some d)).isEmpty = false := by
      simpa [List.isEmpty_iff] using hne
    unfold deleteDepartment
    rw [hnotnone]
    simp [he1]
  · intro hemp hne
    have he1 : (s.employees.filter
        (fun e => e.department_id == some d)).isEmpty = true := by
      simp [List.isEmpty_iff, hemp]
    have he2 : (s.users.filter
        (fun x => x.department_id == some d)).isEmpty = false := by
      simpa [List.isEmpty_iff] using hne
    unfold deleteDepartment
    rw [hnotnone]
    simp [he1, he2]
  · intro hemp husers
    have he1 : (s.employees.filter
        (fun e => e.department_id == some d)).isEmpty = true := by
      simp [List.isEmpty_iff, hemp]
    have he2 : (s.users.filter
        (fun x => x.department_id == some d)).isEmpty = true := by
      simp [List.isEmpty_iff, husers]
    have hred : deleteDepartment s d =
        ({ breakDepartmentDependencies s d with
            departments := (breakDepartmentDependencies s d).departments.filter
              (fun x => !(x.id == d)) },
         .ok "Department deleted successfully") := by
      unfold deleteDepartment
      rw [hnotnone]
      simp [he1, he2]
    rw [hred]
    refine ⟨rfl, rfl, ?_, ?_, ?_, ?_, ?_, ?_, ?_, ?_, ?_⟩
    · intro x hx
      have hmem := (List.mem_filter.mp hx).2
      simpa using hmem
    · intro t ht
      constructor
      · refine mem_map_pres_ne (fun t => t.department_id) _ ?_ d _ ?_ t ht
        · intro x
          unfold nullOutRef
          split <;> rfl
        · exact mem_map_nullOutRef_ne _ _ (fun x v => rfl) d s.tasks
      · exact mem_map_nullOutRef_ne _ _ (fun x v => rfl) d _ t ht
    · intro c hc
      exact mem_map_nullOutRef_ne _ _ (fun x v => rfl) d _ c hc
    · intro p hp
      exact mem_map_nullOutRef_ne _ _ (fun x v => rfl) d _ p hp
    · intro r hr
      constructor
      · refine mem_map_pres_ne (fun r => r.requesting_department) _ ?_ d _ ?_ r hr
        · intro x
          unfold nullOutRef
          split <;> rfl
        · exact mem_map_nullOutRef_ne _ _ (fun x v => rfl) d s.inventoryRequests
      · exact mem_map_nullOutRef_ne _ _ (fun x v => rfl) d _ r hr
    · intro e he
      exact mem_map_nullOutRef_ne _ _ (fun x v => rfl) d _ e he
    · intro m hm
      exact mem_map_nullOutRef_ne _ _ (fun x v => rfl) d _ m hm
    · intro a ha
      exact mem_map_nullOutRef_ne _ _ (fun x v => rfl) d _ a ha
    · intro ar har
      exact mem_map_nullOutRef_ne _ _ (fun x v => rfl) d _ ar har

/-- C6 witness: with the Bakery department still referenced by one
employee, deletion 400s with the count in the message and the store is
unchanged; with no employee or user references, deletion succeeds and the
task referencing the department is nulled out. -/
theorem delete_department_spec_witness :
    deleteDepartment storeWithEmp 9 =
      (storeWithEmp, .error ⟨400, deptEmployeesMsg 9 1⟩) ∧
    (deleteDepartment storeNoRefs 9).2 = .ok "Department deleted successfully" ∧
    (∀ t ∈ (deleteDepartment storeNoRefs 9).1.tasks,
      t.assigned_to_department ≠ some 9) := by
  have H1 := delete_department_spec storeWithEmp 9 (by rfl)
  have H2 := delete_department_spec storeNoRefs 9 (by rfl)
  refine ⟨?_, ?_, ?_⟩
  · have h := H1.1 (by decide)
    rw [h]
    rfl
  · exact (H2.2.2 rfl rfl).1
  · intro t ht
    exact ((H2.2.2 rfl rfl).2.2.2.1 t ht).2

/-! C7: principal-context resolution. -/

/-- C7 (counterexample): an inactive resolved user is rejected with status
400 (`raise_api_error(400, "Inactive user")`), not 403 Forbidden as the
claim states. -/
theorem inactive_principal_counterexample :
    getCurrentActiveUser [inactiveU] (.ok (some "bob")) =
      .error ⟨400, "Inactive user"⟩ ∧
    ∀ msg, getCurrentActiveUser [inactiveU] (.ok (some "bob")) ≠
      .error ⟨403, msg⟩ := by
  refine ⟨rfl, ?_⟩
  intro msg h
  have h400 : getCurrentActiveUser [inactiveU] (.ok (some "bob")) =
      .error ⟨400, "Inactive user"⟩ := rfl
  rw [h400] at h
  simp at h

/-- C7 (amended): resolution fails with 401 when the token is missing,
invalid or expired, when the decoded payload has no `sub`, or when the
username resolves to no user row; a resolved but inactive user is rejected
with 400 "Inactive user" (not 403); an active resolved user is returned.
These checks run in the `get_current_active_user` dependency, before any
handler logic. -/
theorem principal_resolution_amended (dbUsers : List User) :
    getCurrentActiveUser dbUsers TokenDecode.err =
      .error ⟨401, "Could not validate credentials"⟩ ∧
    getCurrentActiveUser dbUsers (.ok none) =
      .error ⟨401, "Could not validate credentials"⟩ ∧
    (∀ name, dbUsers.find? (fun x => x.username == name) = none →
      getCurrentActiveUser dbUsers (.ok (some name)) =
        .error ⟨401, "Could not validate credentials"⟩) ∧
    (∀ name u, dbUsers.find? (fun x => x.username == name) = some u →
      getCurrentActiveUser dbUsers (.ok (some name)) =
        if u.is_active then .ok u else .error ⟨400, "Inactive user"⟩) := by
  refine ⟨rfl, rfl, ?_, ?_⟩
  · intro name h
    unfold getCurrentActiveUser getCurrentUser
    simp only [h]
  · intro name u h
    unfold getCurrentActiveUser getCurrentUser
    simp only [h]
    cases hia : u.is_active <;> simp [hia]

/-- C7 witness: with a two-user table, an unknown username yields 401 and
a known active username yields the user. -/
theorem principal_resolution_amended_witness :
    getCurrentActiveUser [inactiveU, staffD1] (.ok (some "ghost")) =
      .error ⟨401, "Could not validate credentials"⟩ ∧
    getCurrentActiveUser [inactiveU, staffD1] (.ok (some "sam")) =
      .ok staffD1 := by
  have H := principal_resolution_amended [inactiveU, staffD1]
  refine ⟨H.2.2.1 "ghost" rfl, ?_⟩
  have h := H.2.2.2 "sam" staffD1 rfl
  rw [h]
  rfl

/-! C8: the password hash in user projections. -/

theorem lookupKey_filter_self (k : String) (l : List (String × Value)) :
    lookupKey k (l.filter (fun kv => kv.fst != k)) = none := by
  unfold lookupKey
  have h : (l.filter (fun kv => kv.fst != k)).find?
      (fun kv => kv.fst == k) = none := by
    rw [List.find?_eq_none]
    intro kv hkv
    have h2 := (List.mem_filter.mp hkv).2
    simpa using h2
  rw [h]
  rfl

/-- C8 (code bug): `GET /auth/me` returns the raw `users` row as its
`"user"` object, so the response always contains `password_hash`; by
contrast `GET /users/{id}` deletes the key before returning, as every
other user projection does ("Remove password_hash for security"). -/
theorem me_endpoint_returns_password_hash (emps : List Employee)
    (depts : List Department) (cu : User) :
    lookupKey "password_hash" (getCurrentUserInfo emps depts cu).user =
      some (.vStr cu.password_hash) ∧
    (∀ dbUsers target proj, getUserEndpoint dbUsers cu target = .ok proj →
      lookupKey "password_hash" proj = none) := by
  constructor
  · rfl
  · intro dbUsers target proj h
    unfold getUserEndpoint at h
    split at h
    · simp at h
    · split at h
      · simp at h
      · simp only [Except.ok.injEq] at h
        subst h
        exact lookupKey_filter_self "password_hash" _

/-! C9: mandatory-training fan-out. -/

/-- C9 (counterexample): the fan-out query filters only on department and
position — there is no `status == "active"` condition — so an inactive
department-2 employee receives a requirement from a mandatory type scoped
to department 2, while the claim says inactive employees receive none. -/
theorem training_fanout_counterexample :
    inactiveEmp.status = some "inactive" ∧
    createTrainingType [inactiveEmp] mandatoryType adminU 7 1000 =
      [{ employee_id := 5, training_type_id := 7, required_by_date := 1030
         status := "pending", assigned_by := 1 }] := by
  decide

/-- C9 (amended): a mandatory training type with a non-empty department or
position scoping list creates exactly one pending requirement, due 30 days
out, for each employee — regardless of employment status — whose
`department_id` is one of the scoped departments or whose `position`
equals one of the scoped positions; non-matching employees get none. -/
theorem training_fanout_amended (emps : List Employee)
    (td : TrainingTypeCreate) (cu : User) (tid today : Nat)
    (h1 : td.is_mandatory = true)
    (h2 : td.required_for_departments ≠ [] ∨ td.required_for_positions ≠ []) :
    createTrainingType emps td cu tid today =
      (emps.filter (trainingFanoutMatch td)).map (fun e =>
        { employee_id := e.id, training_type_id := tid
          required_by_date := today + 30, status := "pending"
          assigned_by := cu.id }) ∧
    (∀ e, trainingFanoutMatch td e = true ↔
      ((∃ dd ∈ td.required_for_departments, e.department_id = some dd) ∨
       (∃ p ∈ td.required_for_positions, e.position = some p))) ∧
    (createTrainingType emps td cu tid today).length =
      (emps.filter (trainingFanoutMatch td)).length ∧
    (∀ r ∈ createTrainingType emps td cu tid today,
      r.status = "pending" ∧ r.required_by_date = today + 30 ∧
      r.training_type_id = tid) ∧
    (∀ e ∈ emps, trainingFanoutMatch td e = true →
      ∃ r ∈ createTrainingType emps td cu tid today, r.employee_id = e.id) := by
  have hcond : (td.is_mandatory &&
      (!td.required_for_departments.isEmpty ||
       !td.required_for_positions.isEmpty)) = true := by
    rcases h2 with h | h <;>
      simp [h1, List.isEmpty_iff, h]
  have hred : createTrainingType emps td cu tid today =
      (emps.filter (trainingFanoutMatch td)).map (fun e =>
        { employee_id := e.id, training_type_id := tid
          required_by_date := today + 30, status := "pending"
          assigned_by := cu.id }) := by
    unfold createTrainingType
    rw [hcond]
    rfl
  refine ⟨hred, ?_, ?_, ?_, ?_⟩
  · intro e
    simp [trainingFanoutMatch, List.any_eq_true]
  · rw [hred, List.length_map]
  · intro r hr
    rw [hred] at hr
    obtain ⟨e, _, rfl⟩ := List.mem_map.1 hr
    exact ⟨rfl, rfl, rfl⟩
  · intro e he hmatch
    rw [hred]
    refine ⟨_, List.mem_map_of_mem _ (List.mem_filter.mpr ⟨he, hmatch⟩), rfl⟩

/-- C9 witness: the amended fan-out evaluated on a roster with an active
lead, an active clerk and an inactive clerk, for a type scoped to
department 2: all three department-2 employees receive one pending
requirement due in 30 days. -/
theorem training_fanout_amended_witness :
    createTrainingType [deptLead, deptClerk, inactiveEmp] mandatoryType
        adminU 7 1000 =
      [{ employee_id := 42, training_type_id := 7, required_by_date := 1030
         status := "pending", assigned_by := 1 },
       { employee_id := 43, training_type_id := 7, required_by_date := 1030
         status := "pending", assigned_by := 1 },
       { employee_id := 5, training_type_id := 7, required_by_date := 1030
         status := "pending", assigned_by := 1 }] ∧
    (∀ r ∈ createTrainingType [deptLead, deptClerk, inactiveEmp]
        mandatoryType adminU 7 1000,
      r.status = "pending" ∧ r.required_by_date = 1030 ∧
      r.training_type_id = 7) := by
  have H := training_fanout_amended [deptLead, deptClerk, inactiveEmp]
    mandatoryType adminU 7 1000 rfl (Or.inl (by decide))
  refine ⟨?_, H.2.2.2.1⟩
  rw [H.1]
  rfl

end StoreApp
